import Mathlib

/-!
Shallow embedding of `py2neo/net/http.py`: the JSON-over-HTTP transport of the
py2neo driver.  Pure data (decoded JSON payloads, request bodies) becomes Lean
structures; the stateful `HTTP` connection object becomes an explicit state
record, and each method becomes a function from the state (plus the responses
the external urllib3 pool would deliver) to a result, a new state, and the list
of HTTP requests the method issues, in order.  Python exceptions become an
`Except` error type; Python truthiness of optional strings is modelled
explicitly.
-/

set_option autoImplicit false

namespace Py2neoHTTP

/-- Decoded JSON-ish values, used for opaque payload pieces (rows, stats). -/
inductive J where
  | null
  | bool (b : Bool)
  | num (n : Int)
  | str (s : String)
  | arr (xs : List J)
  | obj (kvs : List (String × J))

/-- Python truthiness of an optional string argument: `None` and `""` are falsy. -/
def strTruthy : Option String → Bool
  | none => false
  | some s => s ≠ ""

/-- Modelled from the spec: `TransactionRecord` (class `Transaction` of
`py2neo.net.api`, not under `src/`) — "target database name (optional — absent
means default database)". -/
structure Txn where
  db : Option String
deriving DecidableEq

/-- Modelled from the spec: `ServerProfile` (class of `py2neo`, not under
`src/`) — "immutable connection parameters — host, port, scheme, credentials". -/
structure Profile where
  host : String
  port : Nat
  scheme : String
  authUser : String
  authPassword : String
deriving DecidableEq

/-- Modelled from the spec: `Profile.to_dict` supplies the
"connection-identifying metadata" merged into a cursor summary. -/
def Profile.to_dict (p : Profile) : List (String × String) :=
  [("host", p.host), ("port", toString p.port), ("scheme", p.scheme)]

/-- Python exceptions raised by the transport. -/
inductive Err where
  | transactionError (msg : String)
  | keyError (key : String)
  | runtimeError (msg : String)
  | assertionError
deriving DecidableEq

/-- HTTP method of an issued request. -/
inductive Method where
  | GET
  | POST
  | DELETE
deriving DecidableEq

/-- One entry of the `statements` list built by `HTTP._post`
(`OrderedDict` of statement, parameters, resultDataContents, includeStats). -/
structure StatementEntry where
  statement : String
  parameters : List (String × J)
  resultDataContents : List String
  includeStats : Bool

/-- The JSON body posted by `HTTP._post`: always of shape
`\x7b"statements": [...]\x7d`. -/
structure PostBody where
  statements : List StatementEntry

/-- A request handed to the urllib3 pool: method, url, and (for POST) a body. -/
structure Request where
  method : Method
  url : String
  body : Option PostBody

/-- The response object consumed by `begin` / ignored by `commit` and
`rollback`: a status code plus the path of the `Location` header (`none` when
the header is absent; the path extraction itself is `urlsplit`, an external
stdlib collaborator). -/
structure Response where
  status : Nat
  locationPath : Option String
deriving DecidableEq

/-- One data entry of a result block: the decoded row under its `"rest"` key
(the requested row representation). -/
structure DataEntry where
  rest : J

/-- One raw error payload of the decoded `errors` list:
`\x7b"code": ..., "message": ...\x7d`. -/
structure ErrorPayload where
  code : String
  message : String
deriving DecidableEq

/-- One per-statement result block of a decoded transactional response:
`columns`, `data` and `stats` are each optional keys of the JSON object
(`result.get` supplies the defaults in `HTTPResult.__init__`). -/
structure ResultBlock where
  columns : Option (List String)
  data : Option (List DataEntry)
  stats : Option J

/-- The empty result block `\x7b\x7d` used when the server executed zero
statements. -/
def emptyResultBlock : ResultBlock :=
  { columns := none, data := none, stats := none }

/-- Decoded body of a transactional response:
`\x7b"results": [...], "errors": [...]\x7d`.  The `errors` key is optional
(`run_in_tx` reads it with `.get`, `auto_run` indexes it raw). -/
structure TxResponseData where
  results : List ResultBlock
  errors : Option (List ErrorPayload)

/-- Response to an executable POST: status code plus decoded body. -/
structure TxResponse where
  status : Nat
  body : TxResponseData

/-- Decoded body of a discovery probe: only the presence and value of the
top-level `neo4j_version` key matter to `hello`. -/
structure DiscoveryBody where
  neo4j_version : Option String
deriving DecidableEq

/-- Response to a discovery GET. -/
structure DiscoveryResponse where
  body : DiscoveryBody
deriving DecidableEq

/-- The structured server-error value raised by `audit`. -/
structure GraphErr where
  code : String
  message : String
deriving DecidableEq

/-- Modelled from the spec: `GraphError.hydrate` (`py2neo.database`, not under
`src/`) builds "a structured server-error exception carrying the server code
and message" from one raw error payload. -/
def GraphError.hydrate (e : ErrorPayload) : GraphErr :=
  { code := e.code, message := e.message }

/-- Mutable state of one `HTTP` connection object.  `transactions` is the
per-connection registry (a Python dict, embedded as an association list with
unique keys maintained by `dictInsert`/`dictErase`); `supports_multi` is the
tri-state capability flag (`None`/`False`/`True`); `profile` and
`server_agent` are attributes kept on the base `Connection` class (not under
`src/`), modelled from the spec as the caller-supplied profile reference and
the recorded server version string. -/
structure HTTPState where
  transactions : List (String × Txn)
  supports_multi : Option Bool
  server_agent : Option String
  profile : Option Profile
  closed : Bool
deriving DecidableEq

/-- Dict assignment `transactions[tx] = v`: replace in place if the key is
present, else append. -/
def dictInsert (l : List (String × Txn)) (k : String) (v : Txn) :
    List (String × Txn) :=
  if (l.lookup k).isSome then
    l.map (fun kv => if kv.1 = k then (k, v) else kv)
  else
    l ++ [(k, v)]

/-- Dict removal as performed by `transactions.pop(tx)`. -/
def dictErase (l : List (String × Txn)) (k : String) : List (String × Txn) :=
  l.filter (fun kv => kv.1 != k)

/-- A GET request as issued by `hello` (no body). -/
def getRequest (url : String) : Request :=
  { method := .GET, url := url, body := none }

/-- A DELETE request as issued by `HTTP._delete` (no body). -/
def delete_request (url : String) : Request :=
  { method := .DELETE, url := url, body := none }

/-- The body built by `HTTP._post`: one statement entry when a truthy
statement is given (`if statement:`), else an explicit empty list; absent
parameters default to the empty mapping (`parameters or \x7b\x7d`). -/
def post_body (statement : Option String) (parameters : Option (List (String × J))) :
    PostBody :=
  if strTruthy statement then
    { statements := [{ statement := statement.getD ""
                       parameters := parameters.getD []
                       resultDataContents := ["REST"]
                       includeStats := true }] }
  else
    { statements := [] }

/-- The POST request issued by `HTTP._post`. -/
def post_request (url : String) (statement : Option String)
    (parameters : Option (List (String × J))) : Request :=
  { method := .POST, url := url, body := some (post_body statement parameters) }

/-- `HTTP._transaction_uri`: multi-database path `db/<db>/tx/...` when a truthy
`db` is given and the capability flag is `True`; a `RuntimeError` when a truthy
`db` is given otherwise; the legacy fixed path `db/data/transaction/...` when
`db` is falsy. -/
def transaction_uri (st : HTTPState) (db : Option String) (segments : List String) :
    Except Err String :=
  if strTruthy db then
    if st.supports_multi = some true then
      .ok (String.intercalate "/" (["db", db.getD "", "tx"] ++ segments))
    else
      .error (.runtimeError
        "Multiple databases are not supported with this version of Neo4j")
  else
    .ok (String.intercalate "/" (["db", "data", "transaction"] ++ segments))

/-- `HTTP.hello`: GET the root; if the decoded body has a top-level
`neo4j_version` key the server is 4.x (capability `True`, no second probe),
else GET the legacy discovery path `/db/data/` and read `neo4j_version` from
its body (capability `False`); either way record
`server_agent = "Neo4j/<version>"`.  A missing `neo4j_version` in the legacy
body is a raw `KeyError` raised before the capability flag is assigned. -/
def hello (st : HTTPState) (r1 r2 : DiscoveryResponse) :
    Except Err Unit × HTTPState × List Request :=
  match r1.body.neo4j_version with
  | some v =>
      (.ok (), { st with supports_multi := some true
                         server_agent := some ("Neo4j/" ++ v) },
       [getRequest "/"])
  | none =>
      match r2.body.neo4j_version with
      | some v =>
          (.ok (), { st with supports_multi := some false
                             server_agent := some ("Neo4j/" ++ v) },
           [getRequest "/", getRequest "/db/data/"])
      | none =>
          (.error (.keyError "neo4j_version"), st,
           [getRequest "/", getRequest "/db/data/"])

/-- `str.rpartition("/")[-1]`: the substring after the final slash (the whole
string when no slash occurs). -/
def rpartitionLast (s : String) : String :=
  (s.splitOn "/").getLastD ""

/-- `HTTP._assert_valid_tx`: a falsy handle (Python `not tx`: `None` or `""`)
raises "No transaction"; a truthy handle absent from the registry raises
"Invalid transaction". -/
def assert_valid_tx (st : HTTPState) (tx : Option String) : Except Err Unit :=
  if ¬ strTruthy tx then
    .error (.transactionError "No transaction")
  else if (st.transactions.lookup (tx.getD "")).isNone then
    .error (.transactionError "Invalid transaction")
  else
    .ok ()

/-- `HTTP.begin`: build the transaction-root URI (which may raise the
capability error before any request), POST an empty statement list; on a 201
response take the trailing segment of the `Location` path as the new handle and
register it; any other status raises. -/
def begin (st : HTTPState) (db : Option String) (resp : Response) :
    Except Err String × HTTPState × List Request :=
  match transaction_uri st db [] with
  | .error e => (.error e, st, [])
  | .ok url =>
      let req := post_request url none none
      if resp.status = 201 then
        match resp.locationPath with
        | none => (.error (.keyError "Location"), st, [req])
        | some path =>
            let tx := rpartitionLast path
            (.ok tx,
             { st with transactions := dictInsert st.transactions tx { db := db } },
             [req])
      else
        (.error (.runtimeError "Can\x27t begin a new transaction"), st, [req])

/-- `HTTP.commit`: assert the handle valid, pop it from the registry, then
POST to `<uri>/<tx>/commit`.  The response (`resp`) is ignored entirely. -/
def commit (st : HTTPState) (tx : Option String) (resp : Response) :
    Except Err Unit × HTTPState × List Request :=
  match assert_valid_tx st tx with
  | .error e => (.error e, st, [])
  | .ok _ =>
      let key := tx.getD ""
      let transaction := (st.transactions.lookup key).getD { db := none }
      let st1 : HTTPState := { st with transactions := dictErase st.transactions key }
      match transaction_uri st1 transaction.db [key, "commit"] with
      | .error e => (.error e, st1, [])
      | .ok url =>
          let _ := resp
          (.ok (), st1, [post_request url none none])

/-- `HTTP.rollback`: assert the handle valid, pop it from the registry, then
DELETE the transaction URI.  The response (`resp`) is ignored entirely. -/
def rollback (st : HTTPState) (tx : Option String) (resp : Response) :
    Except Err Unit × HTTPState × List Request :=
  match assert_valid_tx st tx with
  | .error e => (.error e, st, [])
  | .ok _ =>
      let key := tx.getD ""
      let transaction := (st.transactions.lookup key).getD { db := none }
      let st1 : HTTPState := { st with transactions := dictErase st.transactions key }
      match transaction_uri st1 transaction.db [key] with
      | .error e => (.error e, st1, [])
      | .ok url =>
          let _ := resp
          (.ok (), st1, [delete_request url])

/-- Summary mapping of a cursor: at most the keys `"stats"` and
`"connection"`, each present iff set in `HTTPResult.__init__`. -/
structure Summary where
  stats : Option J
  connection : Option (List (String × String))

/-- The buffered result cursor built from one decoded result block. -/
structure HTTPResult where
  columns : List String
  dataRows : List DataEntry
  summary : Summary
  errors : Option (List ErrorPayload)
  cursor : Nat

/-- `HTTPResult.__init__`: columns and data default to empty; `"stats"` enters
the summary iff present in the result block; `"connection"` enters the summary
iff a truthy profile was passed. -/
def HTTPResult.make (result : ResultBlock) (errors : Option (List ErrorPayload))
    (profile : Option Profile) : HTTPResult :=
  { columns := result.columns.getD []
    dataRows := result.data.getD []
    summary := { stats := result.stats
                 connection := profile.map Profile.to_dict }
    errors := errors
    cursor := 0 }

/-- `HTTPResult.audit`: when the deferred-error queue is truthy (neither
`None` nor empty) pop its oldest entry and raise the hydrated `GraphError`;
otherwise do nothing.  The raised error is returned as `some`. -/
def HTTPResult.audit (r : HTTPResult) : Option GraphErr × HTTPResult :=
  match r.errors with
  | some (e :: es) => (some (GraphError.hydrate e), { r with errors := some es })
  | _ => (none, r)

/-- `HTTPResult.has_records`: true while the cursor is before the buffered
length. -/
def HTTPResult.has_records (r : HTTPResult) : Bool :=
  r.cursor < r.dataRows.length

/-- `HTTPResult.take_record`: the `"rest"` row at the cursor, advancing it by
one; an `IndexError` past the end is caught and `None` returned with the
cursor unchanged. -/
def HTTPResult.take_record (r : HTTPResult) : Option J × HTTPResult :=
  match r.dataRows[r.cursor]? with
  | none => (none, r)
  | some entry => (some entry.rest, { r with cursor := r.cursor + 1 })

/-- Iterate `take_record` k times, collecting the returned values in order. -/
def takeRecords : HTTPResult → Nat → List (Option J) × HTTPResult
  | r, 0 => ([], r)
  | r, k + 1 =>
      let step := r.take_record
      let rest := takeRecords step.2 k
      (step.1 :: rest.1, rest.2)

/-- `HTTP.run_in_tx`: raw registry lookup (`self.transactions[tx]`, a
`KeyError` when absent), build the URI from the record, POST the one
statement, assert status 200, and build a cursor from the first result block
(or the empty block), the `errors` read with `.get`, and the connection
profile. -/
def run_in_tx (st : HTTPState) (tx : Option String) (cypher : String)
    (parameters : Option (List (String × J))) (resp : TxResponse) :
    Except Err HTTPResult × HTTPState × List Request :=
  let found : Except Err Txn :=
    match tx with
    | none => .error (.keyError "None")
    | some s =>
        match st.transactions.lookup s with
        | none => .error (.keyError s)
        | some t => .ok t
  match found with
  | .error e => (.error e, st, [])
  | .ok transaction =>
      match transaction_uri st transaction.db [tx.getD ""] with
      | .error e => (.error e, st, [])
      | .ok url =>
          let req := post_request url (some cypher) parameters
          if resp.status = 200 then
            let result_data := resp.body.results.headD emptyResultBlock
            (.ok (HTTPResult.make result_data resp.body.errors st.profile),
             st, [req])
          else
            (.error .assertionError, st, [req])

/-- `HTTP.auto_run`: POST the one statement to the commit-suffixed
transaction-root URI (never touching the registry), assert status 200, and
build a cursor from the first result block and the raw-indexed `errors`
(a `KeyError` when absent); no profile is passed. -/
def auto_run (st : HTTPState) (cypher : String)
    (parameters : Option (List (String × J))) (db : Option String)
    (resp : TxResponse) :
    Except Err HTTPResult × HTTPState × List Request :=
  match transaction_uri st db ["commit"] with
  | .error e => (.error e, st, [])
  | .ok url =>
      let req := post_request url (some cypher) parameters
      if resp.status = 200 then
        let result_data := resp.body.results.headD emptyResultBlock
        match resp.body.errors with
        | none => (.error (.keyError "errors"), st, [req])
        | some errs =>
            (.ok (HTTPResult.make result_data (some errs) none), st, [req])
      else
        (.error .assertionError, st, [req])

/-- A base connection state: empty registry, capability unknown. -/
def stBase : HTTPState :=
  { transactions := [], supports_multi := none, server_agent := none,
    profile := none, closed := false }

/-- A multi-database-capable connection holding the single handle `"7"`. -/
def stOne : HTTPState :=
  { transactions := [("7", { db := none })], supports_multi := some true,
    server_agent := none, profile := none, closed := false }

/-- A connection whose registry holds the empty-string handle. -/
def stEmptyHandle : HTTPState :=
  { transactions := [("", { db := none })], supports_multi := some true,
    server_agent := none, profile := none, closed := false }

/-- A response object with status 200 and no `Location` header. -/
def respA : Response :=
  { status := 200, locationPath := none }

/-- A transactional 200 response with no results and an empty error list. -/
def respT : TxResponse :=
  { status := 200, body := { results := [], errors := some [] } }

/-- A cursor whose deferred-error queue holds exactly one payload. -/
def curOneError : HTTPResult :=
  { columns := [], dataRows := [],
    summary := { stats := none, connection := none },
    errors := some [{ code := "X", message := "m" }], cursor := 0 }

/-- A fresh cursor buffering two rows. -/
def curTwoRows : HTTPResult :=
  { columns := ["n"], dataRows := [{ rest := J.num 1 }, { rest := J.num 2 }],
    summary := { stats := none, connection := none },
    errors := some [], cursor := 0 }

/-- A caller-supplied connection profile. -/
def profW : Profile :=
  { host := "localhost", port := 7474, scheme := "http",
    authUser := "neo4j", authPassword := "pw" }

/-- A connection with a profile whose registry holds the handle `"7"`. -/
def stProf : HTTPState :=
  { transactions := [("7", { db := none })], supports_multi := some true,
    server_agent := none, profile := some profW, closed := false }

/-- A result block carrying one row and a stats object. -/
def rbStats : ResultBlock :=
  { columns := some ["n"], data := some [{ rest := J.num 1 }],
    stats := some (J.obj []) }

/-- A transactional 200 response whose single result block carries stats. -/
def respStats : TxResponse :=
  { status := 200, body := { results := [rbStats], errors := some [] } }

/-! Theorems -/



/-- Looking up a key after dict removal finds nothing. -/
theorem lookup_dictErase (l : List (String × Txn)) (k : String) :
    (dictErase l k).lookup k = none := by
  induction l with
  | nil => rfl
  | cons kv tl ih =>
      obtain ⟨a, b⟩ := kv
      by_cases h : a = k
      · simpa [dictErase, List.filter_cons, h] using ih
      · have hk : (k == a) = false := beq_eq_false_iff_ne.mpr (Ne.symm h)
        simpa [dictErase, List.filter_cons, h, List.lookup, hk] using ih

/-- C3: with a truthy database argument and a capability flag other than
multi-database-capable, `begin` raises the capability `RuntimeError`
immediately: no request is issued and the state (hence the registry) is
unchanged. -/
theorem C3_begin_capability_error (st : HTTPState) (db : Option String)
    (resp : Response) (hdb : strTruthy db = true)
    (hcap : st.supports_multi ≠ some true) :
    begin st db resp =
      (.error (.runtimeError
        "Multiple databases are not supported with this version of Neo4j"),
       st, []) := by
  simp [begin, transaction_uri, hdb, hcap]

/-- C3 witness: a legacy-capability connection given `db = "x"`. -/
theorem C3_begin_capability_error_witness :
    strTruthy (some "x") = true ∧
    (some false : Option Bool) ≠ some true ∧
    begin { transactions := [], supports_multi := some false,
            server_agent := none, profile := none, closed := false }
          (some "x") { status := 201, locationPath := some "loc" } =
      (.error (.runtimeError
        "Multiple databases are not supported with this version of Neo4j"),
       { transactions := [], supports_multi := some false, server_agent := none,
         profile := none, closed := false }, []) :=
  ⟨by decide, by decide,
   C3_begin_capability_error _ _ _ (by decide) (by decide)⟩

/-- C8: a falsy handle (absent argument: `None` or `""`) makes `commit` and
`rollback` raise "No transaction", while a truthy handle missing from the
registry makes them raise "Invalid transaction" — two distinct errors; in
every case the error comes before any request (empty request list) and the
state, hence the registry, is unchanged. -/
theorem C8_absent_vs_unknown_handle (st : HTTPState) (r : Response) :
    (∀ tx : Option String, strTruthy tx = false →
        commit st tx r = (.error (.transactionError "No transaction"), st, []) ∧
        rollback st tx r = (.error (.transactionError "No transaction"), st, [])) ∧
    (∀ s : String, s ≠ "" → st.transactions.lookup s = none →
        commit st (some s) r =
          (.error (.transactionError "Invalid transaction"), st, []) ∧
        rollback st (some s) r =
          (.error (.transactionError "Invalid transaction"), st, [])) := by
  constructor
  · intro tx htx
    constructor <;> simp [commit, rollback, assert_valid_tx, htx]
  · intro s hs hlk
    have h1 : strTruthy (some s) = true := by simp [strTruthy, hs]
    constructor <;> simp [commit, rollback, assert_valid_tx, h1, hlk]

/-- C8 witness: `commit`/`rollback` with `None`, `""` and the unknown handle
`"9"` on a registry holding only `"7"`. -/
theorem C8_absent_vs_unknown_handle_witness :
    strTruthy (none : Option String) = false ∧
    strTruthy (some "") = false ∧
    ("9" : String) ≠ "" ∧
    (([("7", ({ db := none } : Txn))]).lookup "9" = none) ∧
    (commit { transactions := [("7", { db := none })], supports_multi := some true,
              server_agent := none, profile := none, closed := false }
            none { status := 200, locationPath := none } =
      (.error (.transactionError "No transaction"),
       { transactions := [("7", { db := none })], supports_multi := some true,
         server_agent := none, profile := none, closed := false }, [])) ∧
    (commit { transactions := [("7", { db := none })], supports_multi := some true,
              server_agent := none, profile := none, closed := false }
            (some "9") { status := 200, locationPath := none } =
      (.error (.transactionError "Invalid transaction"),
       { transactions := [("7", { db := none })], supports_multi := some true,
         server_agent := none, profile := none, closed := false }, [])) :=
  ⟨by decide, by decide, by decide, by decide,
   ((C8_absent_vs_unknown_handle _ _).1 none (by decide)).1,
   ((C8_absent_vs_unknown_handle _ _).2 "9" (by decide) (by decide)).1⟩

/-- C9: `auto_run` leaves the whole connection state — in particular the
transaction registry and its size — unchanged, whatever the statement,
parameters, database argument and response. -/
theorem C9_auto_run_registry_frame (st : HTTPState) (cy : String)
    (pm : Option (List (String × J))) (db : Option String) (r : TxResponse) :
    (auto_run st cy pm db r).2.1.transactions = st.transactions ∧
    (auto_run st cy pm db r).2.1.transactions.length = st.transactions.length := by
  have h : (auto_run st cy pm db r).2.1 = st := by
    unfold auto_run
    split
    · rfl
    · split
      · split <;> rfl
      · rfl
  exact ⟨by rw [h], by rw [h]⟩

/-- Popping a present, non-empty handle: `commit` always reaches the
registry pop, whatever the response, leaving the state with that key
erased. -/
theorem commit_state_of_mem (st : HTTPState) (h : String) (r : Response)
    (hne : h ≠ "") (hmem : (st.transactions.lookup h).isSome = true) :
    (commit st (some h) r).2.1 =
      { st with transactions := dictErase st.transactions h } := by
  obtain ⟨t, ht⟩ := Option.isSome_iff_exists.mp hmem
  have h1 : strTruthy (some h) = true := by simp [strTruthy, hne]
  have ha : assert_valid_tx st (some h) = .ok () := by
    simp [assert_valid_tx, h1, ht]
  unfold commit
  simp only [ha]
  split <;> rfl

/-- Popping a present, non-empty handle: `rollback` always reaches the
registry pop, whatever the response. -/
theorem rollback_state_of_mem (st : HTTPState) (h : String) (r : Response)
    (hne : h ≠ "") (hmem : (st.transactions.lookup h).isSome = true) :
    (rollback st (some h) r).2.1 =
      { st with transactions := dictErase st.transactions h } := by
  obtain ⟨t, ht⟩ := Option.isSome_iff_exists.mp hmem
  have h1 : strTruthy (some h) = true := by simp [strTruthy, hne]
  have ha : assert_valid_tx st (some h) = .ok () := by
    simp [assert_valid_tx, h1, ht]
  unfold rollback
  simp only [ha]
  split <;> rfl

/-- A truthy handle missing from the registry: `commit` raises
"Invalid transaction" with no request and no state change. -/
theorem commit_not_mem (st : HTTPState) (s : String) (r : Response)
    (hs : s ≠ "") (hlk : st.transactions.lookup s = none) :
    commit st (some s) r =
      (.error (.transactionError "Invalid transaction"), st, []) := by
  have h1 : strTruthy (some s) = true := by simp [strTruthy, hs]
  simp [commit, assert_valid_tx, h1, hlk]

/-- A truthy handle missing from the registry: `rollback` raises
"Invalid transaction" with no request and no state change. -/
theorem rollback_not_mem (st : HTTPState) (s : String) (r : Response)
    (hs : s ≠ "") (hlk : st.transactions.lookup s = none) :
    rollback st (some s) r =
      (.error (.transactionError "Invalid transaction"), st, []) := by
  have h1 : strTruthy (some s) = true := by simp [strTruthy, hs]
  simp [rollback, assert_valid_tx, h1, hlk]

/-- C1 counterexample: the empty-string handle can sit in the registry (the
handle is the trailing `Location` path segment, which is empty when that path
ends in a slash), yet `commit` and `rollback` on it raise "No transaction"
before the pop: the handle is NOT removed and the claimed subsequent
"invalid transaction" error never arises. -/
theorem C1_counterexample :
    (stEmptyHandle.transactions.lookup "").isSome = true ∧
    commit stEmptyHandle (some "") respA =
      (.error (.transactionError "No transaction"), stEmptyHandle, []) ∧
    rollback stEmptyHandle (some "") respA =
      (.error (.transactionError "No transaction"), stEmptyHandle, []) :=
  ⟨rfl, rfl, rfl⟩

/-- C1 (amended to non-empty handles): for every non-empty handle present in
the registry, `commit` and `rollback` remove it unconditionally, whatever the
response, and every subsequent `commit` or `rollback` with the same handle
fails with "Invalid transaction". -/
theorem C1_commit_rollback_remove_handle (st : HTTPState) (h : String)
    (r1 r2 : Response) (hne : h ≠ "")
    (hmem : (st.transactions.lookup h).isSome = true) :
    ((commit st (some h) r1).2.1.transactions.lookup h = none) ∧
    ((rollback st (some h) r1).2.1.transactions.lookup h = none) ∧
    ((commit (commit st (some h) r1).2.1 (some h) r2).1 =
        .error (.transactionError "Invalid transaction")) ∧
    ((rollback (commit st (some h) r1).2.1 (some h) r2).1 =
        .error (.transactionError "Invalid transaction")) ∧
    ((commit (rollback st (some h) r1).2.1 (some h) r2).1 =
        .error (.transactionError "Invalid transaction")) ∧
    ((rollback (rollback st (some h) r1).2.1 (some h) r2).1 =
        .error (.transactionError "Invalid transaction")) := by
  have hc := commit_state_of_mem st h r1 hne hmem
  have hr := rollback_state_of_mem st h r1 hne hmem
  have hgone := lookup_dictErase st.transactions h
  refine ⟨?_, ?_, ?_, ?_, ?_, ?_⟩
  · rw [hc]; exact hgone
  · rw [hr]; exact hgone
  · rw [hc, commit_not_mem _ _ _ hne hgone]
  · rw [hc, rollback_not_mem _ _ _ hne hgone]
  · rw [hr, commit_not_mem _ _ _ hne hgone]
  · rw [hr, rollback_not_mem _ _ _ hne hgone]

/-- C1 witness: handle `"7"` present in a one-entry registry. -/
theorem C1_commit_rollback_remove_handle_witness :
    ("7" : String) ≠ "" ∧
    (stOne.transactions.lookup "7").isSome = true ∧
    ((commit stOne (some "7") respA).2.1.transactions.lookup "7" = none) ∧
    ((commit (commit stOne (some "7") respA).2.1 (some "7") respA).1 =
        .error (.transactionError "Invalid transaction")) ∧
    ((rollback (rollback stOne (some "7") respA).2.1 (some "7") respA).1 =
        .error (.transactionError "Invalid transaction")) :=
  ⟨by decide, rfl,
   (C1_commit_rollback_remove_handle stOne "7" respA respA (by decide) rfl).1,
   (C1_commit_rollback_remove_handle stOne "7" respA respA (by decide) rfl).2.2.1,
   (C1_commit_rollback_remove_handle stOne "7" respA respA (by decide) rfl).2.2.2.2.2⟩

/-- C2 counterexample: a handle absent from the registry makes `run_in_tx`
raise a raw `KeyError`, not the structured "Invalid transaction" error that
`commit` and `rollback` raise (there is no `_assert_valid_tx` call on this
path). -/
theorem C2_counterexample :
    (run_in_tx stOne (some "9") "RETURN 1" none respT).1 =
      .error (.keyError "9") ∧
    (run_in_tx stOne (some "9") "RETURN 1" none respT).1 ≠
      .error (.transactionError "Invalid transaction") :=
  ⟨rfl, by
    have h1 : (run_in_tx stOne (some "9") "RETURN 1" none respT).1 =
        .error (.keyError "9") := rfl
    rw [h1]
    simp⟩

/-- C2 (amended): for every handle absent from the registry (and for the
`None` handle), `run_in_tx` fails with a raw key-lookup `KeyError` — not the
structured transaction error — before issuing any request, leaving the state
unchanged. -/
theorem C2_run_in_tx_unknown_handle (st : HTTPState) (s cy : String)
    (pm : Option (List (String × J))) (r : TxResponse)
    (hlk : st.transactions.lookup s = none) :
    run_in_tx st (some s) cy pm r = (.error (.keyError s), st, []) ∧
    run_in_tx st none cy pm r = (.error (.keyError "None"), st, []) := by
  constructor
  · simp [run_in_tx, hlk]
  · simp [run_in_tx]

/-- C2 witness: the unknown handle `"9"` against a registry holding only
`"7"`. -/
theorem C2_run_in_tx_unknown_handle_witness :
    (stOne.transactions.lookup "9" = none) ∧
    run_in_tx stOne (some "9") "RETURN 1" none respT =
      (.error (.keyError "9"), stOne, []) :=
  ⟨rfl, (C2_run_in_tx_unknown_handle stOne "9" "RETURN 1" none respT rfl).1⟩

/-- C4: `audit` on a one-entry deferred-error queue raises the hydrated
structured error carrying exactly the server code and message and leaves an
empty queue; a second `audit` is a no-op.  In general `audit` is a no-op on a
falsy queue (`None` or empty) and otherwise pops exactly the oldest entry. -/
theorem C4_audit_pops_oldest (c m : String) (r : HTTPResult)
    (h : r.errors = some [{ code := c, message := m }]) :
    (r.audit).1 = some { code := c, message := m } ∧
    (r.audit).2.errors = some [] ∧
    (r.audit).2.audit = (none, (r.audit).2) ∧
    (∀ r2 : HTTPResult, r2.errors = none ∨ r2.errors = some [] →
        r2.audit = (none, r2)) ∧
    (∀ (r2 : HTTPResult) (e : ErrorPayload) (es : List ErrorPayload),
        r2.errors = some (e :: es) →
        r2.audit = (some (GraphError.hydrate e), { r2 with errors := some es })) := by
  refine ⟨?_, ?_, ?_, ?_, ?_⟩
  · simp [HTTPResult.audit, h, GraphError.hydrate]
  · simp [HTTPResult.audit, h]
  · simp [HTTPResult.audit, h]
  · rintro r2 (h2 | h2) <;> simp [HTTPResult.audit, h2]
  · intro r2 e es h2
    simp [HTTPResult.audit, h2]

/-- C4 witness: queue `[(code X, message m)]`. -/
theorem C4_audit_pops_oldest_witness :
    curOneError.errors = some [{ code := "X", message := "m" }] ∧
    (curOneError.audit).1 = some { code := "X", message := "m" } ∧
    (curOneError.audit).2.audit = (none, (curOneError.audit).2) :=
  ⟨rfl, (C4_audit_pops_oldest "X" "m" curOneError rfl).1,
   (C4_audit_pops_oldest "X" "m" curOneError rfl).2.2.1⟩

/-- Running the cursor from any in-range position: `takeRecords` yields the
remaining rows in order, padded with the `None` sentinel, and leaves the
position clamped at the buffered length. -/
theorem takeRecords_spec (k : Nat) (r : HTTPResult)
    (h : r.cursor ≤ r.dataRows.length) :
    takeRecords r k =
      (((r.dataRows.drop r.cursor).map (fun d => some d.rest)).take k
         ++ List.replicate (k - (r.dataRows.length - r.cursor)) none,
       { r with cursor := min (r.cursor + k) r.dataRows.length }) := by
  induction k generalizing r with
  | zero =>
      simp only [takeRecords, List.take_zero, Nat.zero_sub, List.replicate_zero,
        List.nil_append, Nat.add_zero, Nat.min_eq_left h]
  | succ k ih =>
      by_cases hlt : r.cursor < r.dataRows.length
      · have hget : r.dataRows[r.cursor]? = some (r.dataRows.get ⟨r.cursor, hlt⟩) :=
          List.getElem?_eq_getElem hlt
        have hstep : r.take_record =
            (some (r.dataRows.get ⟨r.cursor, hlt⟩).rest,
             { r with cursor := r.cursor + 1 }) := by
          simp [HTTPResult.take_record, hget]
        have ih2 := ih { r with cursor := r.cursor + 1 } hlt
        have hdrop : r.dataRows.drop r.cursor =
            r.dataRows.get ⟨r.cursor, hlt⟩ :: r.dataRows.drop (r.cursor + 1) :=
          List.drop_eq_getElem_cons hlt
        have harith : k - (r.dataRows.length - (r.cursor + 1)) =
            (k + 1) - (r.dataRows.length - r.cursor) := by omega
        have hmin : min (r.cursor + 1 + k) r.dataRows.length =
            min (r.cursor + (k + 1)) r.dataRows.length := by omega
        simp only [takeRecords, hstep, ih2, harith, hmin]
        rw [hdrop, List.map_cons, List.take_succ_cons, List.cons_append]
      · have hc : r.cursor = r.dataRows.length := by omega
        have hget : r.dataRows[r.cursor]? = none := by
          rw [List.getElem?_eq_none_iff]
          omega
        have hstep : r.take_record = (none, r) := by
          simp [HTTPResult.take_record, hget]
        have ih2 := ih r h
        have hdrop : r.dataRows.drop r.cursor = [] := by
          rw [hc]
          exact List.drop_length r.dataRows
        have hmin1 : min (r.cursor + k) r.dataRows.length = r.cursor := by omega
        have hmin2 : min (r.cursor + (k + 1)) r.dataRows.length = r.cursor := by omega
        have h1 : r.dataRows.length - r.cursor = 0 := by omega
        simp only [takeRecords, hstep, ih2, hdrop, hmin1, hmin2, List.map_nil,
          List.take_nil, List.nil_append, h1, Nat.sub_zero, List.replicate_succ]

/-- Iterating `take_record` on an exhausted cursor only yields the sentinel
and never moves the cursor. -/
theorem takeRecords_at_end (j : Nat) (s : HTTPResult)
    (h : s.dataRows.length ≤ s.cursor) :
    takeRecords s j = (List.replicate j none, s) := by
  induction j with
  | zero => simp [takeRecords]
  | succ j ih =>
      have hget : s.dataRows[s.cursor]? = none := by
        rw [List.getElem?_eq_none_iff]
        omega
      have hstep : s.take_record = (none, s) := by
        simp [HTTPResult.take_record, hget]
      simp [takeRecords, hstep, ih, List.replicate_succ]

/-- C5: from a fresh cursor, iterating `take_record` over the whole buffer
returns the rows in response order; the cursor is then exhausted
(`has_records` false) and any further calls return only the `None` sentinel
without moving the position.  Per call, the returned value is the row at the
current position, the position advances by one exactly while records remain,
never decreases, and never exceeds the buffered length. -/
theorem C5_take_record_order_and_end (r : HTTPResult) (h0 : r.cursor = 0) :
    (takeRecords r r.dataRows.length).1 =
      r.dataRows.map (fun d => some d.rest) ∧
    (takeRecords r r.dataRows.length).2.has_records = false ∧
    (∀ j, takeRecords (takeRecords r r.dataRows.length).2 j =
        (List.replicate j none, (takeRecords r r.dataRows.length).2)) ∧
    (∀ s : HTTPResult,
        (s.take_record).1 = (s.dataRows[s.cursor]?).map DataEntry.rest) ∧
    (∀ s : HTTPResult, s.has_records = true →
        (s.take_record).2.cursor = s.cursor + 1) ∧
    (∀ s : HTTPResult, s.has_records = false → s.take_record = (none, s)) ∧
    (∀ s : HTTPResult, s.cursor ≤ (s.take_record).2.cursor) ∧
    (∀ s : HTTPResult, s.cursor ≤ s.dataRows.length →
        (s.take_record).2.cursor ≤ s.dataRows.length) := by
  have hspec := takeRecords_spec r.dataRows.length r (by omega)
  rw [h0] at hspec
  simp only [List.drop_zero, Nat.sub_zero, Nat.sub_self, List.replicate_zero,
    List.append_nil, Nat.zero_add, Nat.min_self] at hspec
  have hlen : (r.dataRows.map (fun d => some d.rest)).length =
      r.dataRows.length := List.length_map _ _
  have htake : (r.dataRows.map (fun d => some d.rest)).take r.dataRows.length =
      r.dataRows.map (fun d => some d.rest) := by
    rw [← hlen]
    exact List.take_length _
  rw [htake] at hspec
  have hstep1 : ∀ s : HTTPResult,
      (s.take_record).1 = (s.dataRows[s.cursor]?).map DataEntry.rest := by
    intro s
    cases hg : s.dataRows[s.cursor]? <;> simp [HTTPResult.take_record, hg]
  have hstep2 : ∀ s : HTTPResult, s.has_records = true →
      (s.take_record).2.cursor = s.cursor + 1 := by
    intro s hs
    have hlt : s.cursor < s.dataRows.length := by
      simpa [HTTPResult.has_records] using hs
    simp [HTTPResult.take_record, List.getElem?_eq_getElem hlt]
  have hstep3 : ∀ s : HTTPResult, s.has_records = false →
      s.take_record = (none, s) := by
    intro s hs
    have hge : s.dataRows.length ≤ s.cursor := by
      simpa [HTTPResult.has_records] using hs
    have hg : s.dataRows[s.cursor]? = none := by
      rw [List.getElem?_eq_none_iff]
      omega
    simp [HTTPResult.take_record, hg]
  refine ⟨?_, ?_, ?_, hstep1, hstep2, hstep3, ?_, ?_⟩
  · rw [hspec]
  · rw [hspec]
    simp [HTTPResult.has_records]
  · intro j
    rw [hspec]
    exact takeRecords_at_end j _ (by simp)
  · intro s
    cases hg : s.dataRows[s.cursor]? <;>
      simp [HTTPResult.take_record, hg]
  · intro s hle
    rcases Nat.lt_or_ge s.cursor s.dataRows.length with hlt | hge
    · simp [HTTPResult.take_record, List.getElem?_eq_getElem hlt]
      omega
    · have hg : s.dataRows[s.cursor]? = none := by
        rw [List.getElem?_eq_none_iff]
        omega
      simp [HTTPResult.take_record, hg, hle]

/-- C5 witness: a two-row cursor, drained and then probed three more times. -/
theorem C5_take_record_order_and_end_witness :
    curTwoRows.cursor = 0 ∧
    (takeRecords curTwoRows 2).1 = [some (J.num 1), some (J.num 2)] ∧
    (takeRecords curTwoRows 2).2.has_records = false ∧
    takeRecords (takeRecords curTwoRows 2).2 3 =
      (List.replicate 3 none, (takeRecords curTwoRows 2).2) :=
  ⟨rfl, (C5_take_record_order_and_end curTwoRows rfl).1,
   (C5_take_record_order_and_end curTwoRows rfl).2.1,
   (C5_take_record_order_and_end curTwoRows rfl).2.2.1 3⟩

/-- C6: when the first discovery body carries a top-level `neo4j_version`,
`hello` sets the capability flag to multi-database-capable, records
`server_agent = "Neo4j/<version>"` and issues only the root probe; when it
lacks that key, `hello` issues the legacy probe `/db/data/` as a second
request and, with the version read from the second body, sets the capability
flag to legacy and records the same agent format. -/
theorem C6_hello_negotiation (st : HTTPState) (r1 r2 : DiscoveryResponse) :
    (∀ v, r1.body.neo4j_version = some v →
        hello st r1 r2 =
          (.ok (), { st with supports_multi := some true
                             server_agent := some ("Neo4j/" ++ v) },
           [getRequest "/"])) ∧
    (r1.body.neo4j_version = none →
        (hello st r1 r2).2.2 = [getRequest "/", getRequest "/db/data/"] ∧
        ∀ v, r2.body.neo4j_version = some v →
          hello st r1 r2 =
            (.ok (), { st with supports_multi := some false
                               server_agent := some ("Neo4j/" ++ v) },
             [getRequest "/", getRequest "/db/data/"])) := by
  refine ⟨?_, ?_⟩
  · intro v hv
    simp [hello, hv]
  · intro h1
    refine ⟨?_, ?_⟩
    · rcases h2 : r2.body.neo4j_version with _ | v <;> simp [hello, h1, h2]
    · intro v hv
      simp [hello, h1, hv]

/-- C6 witness: a modern body (version `4.0.0`) and a legacy pair of bodies
(second carrying version `3.5.12`). -/
theorem C6_hello_negotiation_witness :
    (({ body := { neo4j_version := some "4.0.0" } } :
        DiscoveryResponse).body.neo4j_version = some "4.0.0") ∧
    hello stBase { body := { neo4j_version := some "4.0.0" } }
        { body := { neo4j_version := none } } =
      (.ok (), { stBase with supports_multi := some true
                             server_agent := some "Neo4j/4.0.0" },
       [getRequest "/"]) ∧
    hello stBase { body := { neo4j_version := none } }
        { body := { neo4j_version := some "3.5.12" } } =
      (.ok (), { stBase with supports_multi := some false
                             server_agent := some "Neo4j/3.5.12" },
       [getRequest "/", getRequest "/db/data/"]) :=
  ⟨rfl,
   (C6_hello_negotiation stBase { body := { neo4j_version := some "4.0.0" } }
      { body := { neo4j_version := none } }).1 "4.0.0" rfl,
   ((C6_hello_negotiation stBase { body := { neo4j_version := none } }
      { body := { neo4j_version := some "3.5.12" } }).2 rfl).2 "3.5.12" rfl⟩

/-- Requests issued by `commit`: none, or exactly one POST built without a
statement. -/
theorem commit_requests_shape (st : HTTPState) (tx : Option String)
    (r : Response) :
    (commit st tx r).2.2 = [] ∨
    ∃ url, (commit st tx r).2.2 = [post_request url none none] := by
  rcases ha : assert_valid_tx st tx with e | u
  · left
    simp [commit, ha]
  · simp only [commit, ha]
    split
    · exact .inl rfl
    · exact .inr ⟨_, rfl⟩

/-- Requests issued by `begin`: none, or exactly one POST built without a
statement. -/
theorem begin_requests_shape (st : HTTPState) (db : Option String)
    (r : Response) :
    (begin st db r).2.2 = [] ∨
    ∃ url, (begin st db r).2.2 = [post_request url none none] := by
  rcases hu : transaction_uri st db [] with e | url
  · left
    simp [begin, hu]
  · simp only [begin, hu]
    by_cases hs : r.status = 201
    · simp only [if_pos hs]
      rcases hloc : r.locationPath with _ | path <;> simp only [hloc]
      · exact .inr ⟨_, rfl⟩
      · exact .inr ⟨_, rfl⟩
    · simp only [if_neg hs]
      exact .inr ⟨_, rfl⟩

/-- Requests issued by `run_in_tx`: none, or exactly one POST built from the
given statement and parameters. -/
theorem run_in_tx_requests_shape (st : HTTPState) (tx : Option String)
    (cy : String) (pm : Option (List (String × J))) (r : TxResponse) :
    (run_in_tx st tx cy pm r).2.2 = [] ∨
    ∃ url, (run_in_tx st tx cy pm r).2.2 = [post_request url (some cy) pm] := by
  rcases tx with _ | s
  · left
    rfl
  · rcases hl : st.transactions.lookup s with _ | t
    · left
      simp [run_in_tx, hl]
    · simp only [run_in_tx, hl]
      split
      · exact .inl rfl
      · split <;> exact .inr ⟨_, rfl⟩

/-- Requests issued by `auto_run`: none, or exactly one POST built from the
given statement and parameters. -/
theorem auto_run_requests_shape (st : HTTPState) (cy : String)
    (pm : Option (List (String × J))) (db : Option String) (r : TxResponse) :
    (auto_run st cy pm db r).2.2 = [] ∨
    ∃ url, (auto_run st cy pm db r).2.2 = [post_request url (some cy) pm] := by
  rcases hu : transaction_uri st db ["commit"] with e | url
  · left
    simp [auto_run, hu]
  · simp only [auto_run, hu]
    by_cases hs : r.status = 200
    · simp only [if_pos hs]
      rcases he : r.body.errors with _ | errs <;> simp only [he]
      · exact .inr ⟨_, rfl⟩
      · exact .inr ⟨_, rfl⟩
    · simp only [if_neg hs]
      exact .inr ⟨_, rfl⟩

/-- C7 counterexample: a statement IS supplied to `auto_run` — the empty
string — yet the issued POST body carries an empty statements list, not one
entry (Python `if statement:` is false on `""`). -/
theorem C7_counterexample :
    (auto_run stBase "" none none respT).2.2 =
      [{ method := .POST, url := "db/data/transaction/commit",
         body := some { statements := [] } }] ∧
    (post_body (some "") none).statements.length ≠ 1 :=
  ⟨rfl, by decide⟩

/-- C7 (amended to non-empty statements): POSTs built without a statement
(`begin`, `commit`) carry exactly the explicit empty statements list; POSTs
built by `run_in_tx` and `auto_run` carry `post_body` of their statement,
which for a NON-EMPTY statement is exactly one entry with the statement text,
the parameter mapping defaulting to empty, the row-representation marker
`"REST"`, and the include-statistics flag — while an empty statement string
degenerates to the empty list. -/
theorem C7_statement_encoding :
    (∀ p, post_body none p = { statements := [] }) ∧
    (∀ p, post_body (some "") p = { statements := [] }) ∧
    (∀ (s : String) p, s ≠ "" → post_body (some s) p =
        { statements := [{ statement := s, parameters := p.getD [],
                           resultDataContents := ["REST"],
                           includeStats := true }] }) ∧
    (∀ st tx r q, q ∈ (commit st tx r).2.2 →
        q.method = .POST ∧ q.body = some { statements := [] }) ∧
    (∀ st db r q, q ∈ (begin st db r).2.2 →
        q.method = .POST ∧ q.body = some { statements := [] }) ∧
    (∀ st tx cy pm r q, q ∈ (run_in_tx st tx cy pm r).2.2 →
        q.method = .POST ∧ q.body = some (post_body (some cy) pm)) ∧
    (∀ st cy pm db r q, q ∈ (auto_run st cy pm db r).2.2 →
        q.method = .POST ∧ q.body = some (post_body (some cy) pm)) := by
  refine ⟨?_, ?_, ?_, ?_, ?_, ?_, ?_⟩
  · intro p
    simp [post_body, strTruthy]
  · intro p
    simp [post_body, strTruthy]
  · intro s p hs
    simp [post_body, strTruthy, hs]
  · intro st tx r q hq
    rcases commit_requests_shape st tx r with hsh | ⟨url, hsh⟩ <;> rw [hsh] at hq
    · simp at hq
    · simp at hq
      subst hq
      exact ⟨rfl, by simp [post_request, post_body, strTruthy]⟩
  · intro st db r q hq
    rcases begin_requests_shape st db r with hsh | ⟨url, hsh⟩ <;> rw [hsh] at hq
    · simp at hq
    · simp at hq
      subst hq
      exact ⟨rfl, by simp [post_request, post_body, strTruthy]⟩
  · intro st tx cy pm r q hq
    rcases run_in_tx_requests_shape st tx cy pm r with hsh | ⟨url, hsh⟩ <;>
      rw [hsh] at hq
    · simp at hq
    · simp at hq
      subst hq
      exact ⟨rfl, rfl⟩
  · intro st cy pm db r q hq
    rcases auto_run_requests_shape st cy pm db r with hsh | ⟨url, hsh⟩ <;>
      rw [hsh] at hq
    · simp at hq
    · simp at hq
      subst hq
      exact ⟨rfl, rfl⟩

/-- C7 witness: the non-empty statement `RETURN 1` through `auto_run`, and
the entry fields it produces. -/
theorem C7_statement_encoding_witness :
    ("RETURN 1" : String) ≠ "" ∧
    post_body (some "RETURN 1") none =
      { statements := [{ statement := "RETURN 1", parameters := [],
                         resultDataContents := ["REST"],
                         includeStats := true }] } ∧
    post_request "db/data/transaction/commit" (some "RETURN 1") none ∈
      (auto_run stBase "RETURN 1" none none respT).2.2 ∧
    (post_request "db/data/transaction/commit" (some "RETURN 1") none).method =
      .POST ∧
    (post_request "db/data/transaction/commit" (some "RETURN 1") none).body =
      some (post_body (some "RETURN 1") none) :=
  ⟨by decide,
   C7_statement_encoding.2.2.1 "RETURN 1" none (by decide),
   List.Mem.head _,
   (C7_statement_encoding.2.2.2.2.2.2 stBase "RETURN 1" none none respT
      (post_request "db/data/transaction/commit" (some "RETURN 1") none)
      (List.Mem.head _)).1,
   (C7_statement_encoding.2.2.2.2.2.2 stBase "RETURN 1" none none respT
      (post_request "db/data/transaction/commit" (some "RETURN 1") none)
      (List.Mem.head _)).2⟩

/-- A successful `auto_run` cursor is built from the first result block, the
raw-indexed errors and NO profile. -/
theorem auto_run_ok_shape (st : HTTPState) (cy : String)
    (pm : Option (List (String × J))) (db : Option String) (r : TxResponse)
    (res : HTTPResult) (h : (auto_run st cy pm db r).1 = .ok res) :
    ∃ errs, r.body.errors = some errs ∧
      res = HTTPResult.make (r.body.results.headD emptyResultBlock)
              (some errs) none := by
  unfold auto_run at h
  rcases hu : transaction_uri st db ["commit"] with e | url <;>
    simp only [hu] at h
  · cases h
  · by_cases hs : r.status = 200
    · simp only [if_pos hs] at h
      rcases he : r.body.errors with _ | errs <;> simp only [he] at h
      · cases h
      · exact ⟨errs, rfl, (Except.ok.inj h).symm⟩
    · simp only [if_neg hs] at h
      cases h

/-- A successful `run_in_tx` cursor is built from the first result block, the
`.get`-read errors and the connection profile. -/
theorem run_in_tx_ok_shape (st : HTTPState) (tx : Option String) (cy : String)
    (pm : Option (List (String × J))) (r : TxResponse) (res : HTTPResult)
    (h : (run_in_tx st tx cy pm r).1 = .ok res) :
    res = HTTPResult.make (r.body.results.headD emptyResultBlock)
            r.body.errors st.profile := by
  unfold run_in_tx at h
  rcases tx with _ | s
  · simp at h
  · rcases hl : st.transactions.lookup s with _ | t <;> simp only [hl] at h
    · cases h
    · rcases hu : transaction_uri st t.db [(some s).getD ""] with e | url <;>
        simp only [hu] at h
      · cases h
      · by_cases hs : r.status = 200
        · simp only [if_pos hs] at h
          exact (Except.ok.inj h).symm
        · simp only [if_neg hs] at h
          cases h

/-- C10: an `auto_run` cursor never carries a `"connection"` entry in its
summary (no profile is passed), a `run_in_tx` cursor on a connection with a
profile always does, and in both cases a `"stats"` entry is present exactly
when the decoded result block carries stats. -/
theorem C10_summary_connection_and_stats (st : HTTPState) (cy : String)
    (pm : Option (List (String × J))) (db tx : Option String)
    (r : TxResponse) :
    (∀ res, (auto_run st cy pm db r).1 = .ok res →
        res.summary.connection = none) ∧
    (∀ p res, st.profile = some p →
        (run_in_tx st tx cy pm r).1 = .ok res →
        res.summary.connection = some p.to_dict) ∧
    (∀ res, (auto_run st cy pm db r).1 = .ok res ∨
            (run_in_tx st tx cy pm r).1 = .ok res →
        res.summary.stats.isSome =
          (r.body.results.headD emptyResultBlock).stats.isSome) := by
  refine ⟨?_, ?_, ?_⟩
  · intro res h
    obtain ⟨errs, -, hres⟩ := auto_run_ok_shape st cy pm db r res h
    subst hres
    simp [HTTPResult.make]
  · intro p res hp h
    have hres := run_in_tx_ok_shape st tx cy pm r res h
    subst hres
    simp [HTTPResult.make, hp]
  · rintro res (h | h)
    · obtain ⟨errs, -, hres⟩ := auto_run_ok_shape st cy pm db r res h
      subst hres
      simp [HTTPResult.make]
    · have hres := run_in_tx_ok_shape st tx cy pm r res h
      subst hres
      simp [HTTPResult.make]

/-- C10 witness: the same stats-carrying response through `auto_run` on a
profile-less call and through `run_in_tx` on a connection with a profile. -/
theorem C10_summary_connection_and_stats_witness :
    ((auto_run stBase "RETURN 1" none none respStats).1 =
        .ok (HTTPResult.make rbStats (some []) none)) ∧
    (HTTPResult.make rbStats (some []) none).summary.connection = none ∧
    stProf.profile = some profW ∧
    ((run_in_tx stProf (some "7") "RETURN 1" none respStats).1 =
        .ok (HTTPResult.make rbStats (some []) (some profW))) ∧
    (HTTPResult.make rbStats (some []) (some profW)).summary.connection =
      some profW.to_dict ∧
    (HTTPResult.make rbStats (some []) none).summary.stats.isSome =
      (respStats.body.results.headD emptyResultBlock).stats.isSome :=
  ⟨rfl,
   (C10_summary_connection_and_stats stBase "RETURN 1" none none (some "7")
      respStats).1 _ rfl,
   rfl,
   rfl,
   (C10_summary_connection_and_stats stProf "RETURN 1" none none (some "7")
      respStats).2.1 profW _ rfl rfl,
   (C10_summary_connection_and_stats stBase "RETURN 1" none none (some "7")
      respStats).2.2 _ (Or.inl rfl)⟩

end Py2neoHTTP
